import Mathlib

/-!
Verification development for the streams-custom-transports demo
(`src/main.rs`): an ImmuDB-backed transport adapter for an
iota-streams channel, plus the driver (`main`) that walks a channel
through announce-or-recover, subscribe, keyload and a chain of signed
packets.

Modelling conventions:
* Pure logic from `src/main.rs` (the `ImmuDB` transport impl and the
  orchestration decisions of `main`) is embedded directly.
* Network I/O is embedded by passing each HTTP call's outcome as an
  explicit argument (`NetResult`): `.netErr` stands for a failure of
  `reqwest`'s `send()` itself (propagated by `?` in the source), while
  `.ok v` carries the response the store produced.
* External crates (`base64`, `iota_streams`, `serde_json`) are not part
  of the repository; the parts of them the claims depend on are
  modelled from the spec and marked as such in their doc comments.
* Bytes are `Nat`s; a well-formedness predicate records the `< 256`
  bound where it matters.
-/

namespace StreamsTransport

/-- Modelled from the spec: the `base64` crate (external to the repo) —
the spec's Key Codec "reversible text-safe binary encoding (e.g.
base64)". This is the standard base64 alphabet used by
`base64::encode`/`base64::decode` in `src/main.rs`. -/
def b64chars : List Char :=
  "ABCDEFGHIJKLMNOPQRSTUVWXYZabcdefghijklmnopqrstuvwxyz0123456789+/".data

/-- Sextet value (0..63) to base64 alphabet character. -/
def tbl (n : Nat) : Char := b64chars.getD n 'A'

/-- Base64 alphabet character back to its sextet value; `none` for a
character outside the alphabet (including the pad `=`). -/
def untbl (c : Char) : Option Nat := b64chars.findIdx? (fun d => d == c)

/-- Modelled from the spec: `base64::encode` (external crate) — standard
base64 with `=` padding, processing input bytes three at a time. -/
def encB64 : List Nat → List Char
  | [] => []
  | [b1] => [tbl (b1 / 4), tbl (b1 % 4 * 16), '=', '=']
  | [b1, b2] => [tbl (b1 / 4), tbl (b1 % 4 * 16 + b2 / 16), tbl (b2 % 16 * 4), '=']
  | b1 :: b2 :: b3 :: rest =>
      tbl (b1 / 4) :: tbl (b1 % 4 * 16 + b2 / 16) :: tbl (b2 % 16 * 4 + b3 / 64) ::
        tbl (b3 % 64) :: encB64 rest

/-- Modelled from the spec: `base64::decode` (external crate) — inverse
of `encB64`, failing (`none`, the spec's DecodeError) on input that is
not well-formed base64. -/
def decB64 : List Char → Option (List Nat)
  | [] => some []
  | a :: b :: c :: d :: rest =>
      if c = '=' then
        if d = '=' ∧ rest = [] then
          match untbl a, untbl b with
          | some x, some y => some [x * 4 + y / 16]
          | _, _ => none
        else none
      else if d = '=' then
        if rest = [] then
          match untbl a, untbl b, untbl c with
          | some x, some y, some z => some [x * 4 + y / 16, y % 16 * 16 + z / 4]
          | _, _, _ => none
        else none
      else
        match untbl a, untbl b, untbl c, untbl d, decB64 rest with
        | some x, some y, some z, some w, some tail =>
            some ((x * 4 + y / 16) :: (y % 16 * 16 + z / 4) :: (z % 4 * 64 + w) :: tail)
        | _, _, _, _, _ => none
  | _ => none

/-- String-level encoder, as used by the adapter. -/
def b64encode (bs : List Nat) : String := String.mk (encB64 bs)

/-- String-level decoder, as used by the adapter. -/
def b64decode (s : String) : Option (List Nat) := decB64 s.data

theorem untbl_tbl : ∀ n, n < 64 → untbl (tbl n) = some n := by decide

theorem tbl_ne_pad : ∀ n, n < 64 → tbl n ≠ '=' := by decide

theorem decB64_encB64 (B : List Nat) :
    (∀ b ∈ B, b < 256) → decB64 (encB64 B) = some B := by
  induction B using encB64.induct with
  | case1 =>
    intro _
    rfl
  | case2 b1 =>
    intro h
    have hb1 : b1 < 256 := h b1 (by simp)
    have h1 := untbl_tbl (b1 / 4) (by omega)
    have h2 := untbl_tbl (b1 % 4 * 16) (by omega)
    simp [encB64, decB64, h1, h2]
    omega
  | case3 b1 b2 =>
    intro h
    have hb1 : b1 < 256 := h b1 (by simp)
    have hb2 : b2 < 256 := h b2 (by simp)
    have h1 := untbl_tbl (b1 / 4) (by omega)
    have h2 := untbl_tbl (b1 % 4 * 16 + b2 / 16) (by omega)
    have h3 := untbl_tbl (b2 % 16 * 4) (by omega)
    have hne3 : tbl (b2 % 16 * 4) ≠ '=' := tbl_ne_pad _ (by omega)
    simp [encB64, decB64, h1, h2, h3, hne3]
    omega
  | case4 b1 b2 b3 rest ih =>
    intro h
    have hb1 : b1 < 256 := h b1 (by simp)
    have hb2 : b2 < 256 := h b2 (by simp)
    have hb3 : b3 < 256 := h b3 (by simp)
    have hrest : ∀ b ∈ rest, b < 256 := fun b hb => h b (by simp [hb])
    have h1 := untbl_tbl (b1 / 4) (by omega)
    have h2 := untbl_tbl (b1 % 4 * 16 + b2 / 16) (by omega)
    have h3 := untbl_tbl (b2 % 16 * 4 + b3 / 64) (by omega)
    have h4 := untbl_tbl (b3 % 64) (by omega)
    have hne3 : tbl (b2 % 16 * 4 + b3 / 64) ≠ '=' := tbl_ne_pad _ (by omega)
    have hne4 : tbl (b3 % 64) ≠ '=' := tbl_ne_pad _ (by omega)
    simp [encB64, decB64, h1, h2, h3, h4, hne3, hne4, ih hrest]
    omega

/-- Claim C8: for every byte string B, including the empty byte string,
decoding the base64 encoding of B yields B exactly:
`decode(encode(B)) == B` for the encoding used by the adapter. -/
theorem b64decode_b64encode (B : List Nat) (h : ∀ b ∈ B, b < 256) :
    b64decode (b64encode B) = some B :=
  decB64_encB64 B h

/-- Witness for claim C8, at the empty byte string and a concrete
4-byte string. -/
theorem b64decode_b64encode_witness :
    b64decode (b64encode []) = some [] ∧
    b64decode (b64encode [0, 255, 100, 7]) = some [0, 255, 100, 7] :=
  ⟨b64decode_b64encode [] (by decide),
   b64decode_b64encode [0, 255, 100, 7] (by decide)⟩

theorem b64encode_inj {a b : List Nat} (ha : ∀ x ∈ a, x < 256)
    (hb : ∀ x ∈ b, x < 256) (h : b64encode a = b64encode b) : a = b := by
  have hd : decB64 (b64encode a).data = decB64 (b64encode b).data := by rw [h]
  rw [show (b64encode a).data = encB64 a from rfl,
    show (b64encode b).data = encB64 b from rfl,
    decB64_encB64 a ha, decB64_encB64 b hb] at hd
  exact Option.some.inj hd

/-- Modelled from the spec: `iota_streams` `TangleAddress` (external
crate) — the spec's opaque Message Link, "channel identity +
sequence/branch coordinates" (§3). Represented by its two byte-field
coordinates. -/
structure TangleAddress where
  appinst : List Nat
  msgid : List Nat
deriving DecidableEq

/-- Modelled from the spec: `TangleAddress::default()` — the zeroed
address (used by `recv_message` as the unknown-predecessor
placeholder). -/
def TangleAddress.defaultAddr : TangleAddress :=
  ⟨List.replicate 40 0, List.replicate 12 0⟩

/-- Modelled from the spec: `TangleAddress::to_msg_index` (external
crate) — the spec's `linkToKey` canonicalization: "deterministic,
total, collision-free for distinct links within one channel namespace"
(§4.1). Modelled as the concatenation of the link's two fixed-width
coordinate fields. -/
def TangleAddress.to_msg_index (a : TangleAddress) : List Nat :=
  a.appinst ++ a.msgid

/-- Well-formed link: both coordinate fields have their fixed width
(40-byte channel identity, 12-byte message id) and hold bytes. -/
def TangleAddress.wf (a : TangleAddress) : Prop :=
  a.appinst.length = 40 ∧ a.msgid.length = 12 ∧
    (∀ b ∈ a.appinst, b < 256) ∧ (∀ b ∈ a.msgid, b < 256)

instance (a : TangleAddress) : Decidable a.wf := by
  unfold TangleAddress.wf
  infer_instance

/-- Modelled from the spec: `iota_streams` `TangleMessage` (external
crate) — a protocol message: its own link, its predecessor's link, and
an opaque binary body. -/
structure TangleMessage where
  link : TangleAddress
  prev_link : TangleAddress
  body : List Nat
deriving DecidableEq

/-- Modelled from the spec: `TangleMessage::new(link, prev_link, body)`
(external crate constructor used at src/main.rs:181). -/
def TangleMessage.new (link prev_link : TangleAddress) (body : List Nat) :
    TangleMessage :=
  ⟨link, prev_link, body⟩

/-- Outcome of one HTTP call: `ok` carries the response the store
produced; `netErr` stands for a failure of `reqwest`'s `send()` itself,
which the source propagates with `?`. -/
inductive NetResult (α : Type) where
  | ok (response : α)
  | netErr
deriving DecidableEq

/-- The `reqwest::StatusCode::is_success` predicate: 2xx statuses. -/
def isSuccess (status : Nat) : Bool := 200 ≤ status && status < 300

/-- Modelled from the spec: `serde_json::Value` (external crate), the
parsed JSON body of a store response. -/
inductive JsonVal where
  | jnull
  | jbool (b : Bool)
  | num (n : Int)
  | str (s : String)
  | arr (elems : List JsonVal)
  | obj (fields : List (String × JsonVal))

/-- Modelled from the spec: `serde_json` `Value` indexing
(`payload["value"]`): field lookup on objects, `Null` for a missing
field or a non-object. -/
def JsonVal.index (j : JsonVal) (key : String) : JsonVal :=
  match j with
  | .obj fields => ((fields.find? (fun p => p.1 == key)).map (fun p => p.2)).getD .jnull
  | _ => .jnull

/-- Modelled from the spec: `serde_json` `Value::as_str`. -/
def JsonVal.asStr : JsonVal → Option String
  | .str s => some s
  | _ => none

namespace ImmuDB

/-- The fixed store address of src/main.rs:127 (`build_url`). -/
def build_url (path : String) : String := "http://127.0.0.1:3323" ++ path

/-- Outcome of `ImmuDB::login` (src/main.rs:102-124). The source checks
neither response's status; `requestFailed` is the only failure, raised
by `?` when a request itself fails. -/
inductive LoginOutcome where
  | ok
  | requestFailed
deriving DecidableEq

/-- Embedding of `ImmuDB::login` (src/main.rs:102-124): POST `/login`
(base64-encoded credentials), then GET `/db/use/defaultdb`. Each
`send().await?` propagates only request-level failures; the response
statuses are never inspected and the function otherwise returns
`Ok(())`. -/
def login (loginResp dbUseResp : NetResult Nat) : LoginOutcome :=
  match loginResp with
  | .netErr => .requestFailed
  | .ok _ =>
    match dbUseResp with
    | .netErr => .requestFailed
    | .ok _ => .ok

/-- The credential fields of the `/login` request body, base64-encoded
by `serialize_to_base64` (src/main.rs:103-115, 132-137). -/
def loginRequestFields : List (String × String) :=
  [("user", b64encode ("immudb".data.map Char.toNat)),
   ("password", b64encode ("immudb".data.map Char.toNat))]

/-- Error type of `ImmuDB::send_message`: a request-level failure, or
the `anyhow::bail!` whose message carries the message index
(src/main.rs:159). -/
inductive SendError where
  | network
  | rejected (msg_index : List Nat)
deriving DecidableEq

/-- The single key/value pair of the `/db/verified/set` request body
built by `send_message` (src/main.rs:146-152). -/
structure SetRequest where
  key : String
  value : String
deriving DecidableEq

/-- The request `send_message` builds for a message: key = base64 of
the link's message index, value = base64 of the body. -/
def setRequest (msg : TangleMessage) : SetRequest :=
  ⟨b64encode msg.link.to_msg_index, b64encode msg.body⟩

/-- Embedding of `ImmuDB::send_message` (src/main.rs:141-161): build
the verified-set request, issue it once, succeed exactly on a success
status, otherwise bail with the message index. The first component is
the list of write requests issued (always exactly one). -/
def send_message (msg : TangleMessage) (net : NetResult Nat) :
    List SetRequest × Except SendError Unit :=
  ([setRequest msg],
    match net with
    | .netErr => .error .network
    | .ok status =>
      if isSuccess status then .ok () else .error (.rejected msg.link.to_msg_index))

/-- Error type of `ImmuDB::recv_message`: request failure, the
non-success-status `bail!` carrying the status (src/main.rs:193), or a
base64 decode failure propagated by `?` (src/main.rs:184-189). -/
inductive RecvError where
  | network
  | httpError (status : Nat)
  | decodeError
deriving DecidableEq

/-- Result of `ImmuDB::recv_message`, with `panicked` standing for the
`.expect(...)` process abort (src/main.rs:187). -/
inductive RecvOutcome where
  | ok (msg : TangleMessage)
  | err (e : RecvError)
  | panicked (message : String)
deriving DecidableEq

/-- The key sent in the `/db/verified/get` request body
(src/main.rs:170-174): base64 of the link's message index. -/
def keyRequest (link : TangleAddress) : String :=
  b64encode link.to_msg_index

/-- Embedding of `ImmuDB::recv_message` (src/main.rs:163-195): issue a
verified-get for the link's key; on a success status read the `value`
field of the JSON body (panicking via `.expect` if it is missing or
not a string), base64-decode it, and wrap it as a message addressed at
`link` with a default (zeroed) predecessor; on a non-success status
bail with the status. -/
def recv_message (link : TangleAddress) (net : NetResult (Nat × JsonVal)) :
    RecvOutcome :=
  match net with
  | .netErr => .err .network
  | .ok (status, payload) =>
    if isSuccess status then
      match (payload.index "value").asStr with
      | none => .panicked "getting message from successful recv response"
      | some s =>
        match b64decode s with
        | none => .err .decodeError
        | some bytes => .ok (TangleMessage.new link TangleAddress.defaultAddr bytes)
    else .err (.httpError status)

end ImmuDB

/-- Modelled from the spec: the `iota_streams` `Author` role object
(external crate) — opaque to the orchestrator, which only threads it
through engine calls. -/
structure Author where
  id : Nat
deriving DecidableEq

/-- Classification of the ways an engine call routed through the
transport can fail (spec §7 taxonomy): the "record already exists at
this link" rejection, a network failure, an authentication failure. -/
inductive TransportError where
  | alreadyExists
  | network
  | auth
deriving DecidableEq

/-- Embedding of orchestrator step 3 (src/main.rs:20-32): `is_new =
author.send_announce().is_ok()`, and when `!is_new` the author is
rebuilt with `Author::recover(..)?`. The engine calls are passed in as
oracles: `announceResult` is the outcome of `send_announce`,
`recoverResult` the outcome of `Author::recover`. Returns the author
to continue with and the `is_new` flag, or the error the run aborts
with. -/
def announceOrRecover (author0 : Author)
    (announceResult : Except TransportError Unit)
    (recoverResult : Except TransportError Author) :
    Except TransportError (Author × Bool) :=
  let is_new := match announceResult with
    | .ok _ => true
    | .error _ => false
  if is_new then .ok (author0, true)
  else
    match recoverResult with
    | .ok a => .ok (a, false)
    | .error e => .error e

/-- Modelled from the spec: one application message as recorded by the
protocol engine (external crate) — the link the engine assigned to it,
the link it was chained to, and its public and masked (private)
payload parts (spec §4.4 step 8, §6). -/
structure Packet where
  link : Nat
  chained_to : Nat
  public_part : List Nat
  masked_part : List Nat
deriving DecidableEq

/-- Modelled from the spec: the engine's publication state — packets in
publication order, plus a counter from which fresh links are drawn
(links are opaque engine-produced addresses; only freshness matters
here). -/
structure EngineState where
  next_link : Nat
  packets : List Packet
deriving DecidableEq

/-- Modelled from the spec: `send_signed_packet(link, public, masked)`
(§6) — publishes one signed packet chained to `addr`, returning the
fresh link the engine assigned to it. -/
def send_signed_packet (st : EngineState) (addr : Nat)
    (public_part masked_part : List Nat) : Nat × EngineState :=
  (st.next_link,
    ⟨st.next_link + 1,
      st.packets ++ [⟨st.next_link, addr, public_part, masked_part⟩]⟩)

/-- The masked payload of the first signed packet, `b"test branch"`
(src/main.rs:47), as UTF-8 bytes. -/
def testBranchPayload : List Nat := "test branch".data.map Char.toNat

/-- One step of the publication loop of src/main.rs:50-55: publish a
packet chained to the last returned link (`acc.1`) with empty public
part and masked part `x.to_ne_bytes()` (the single byte `x`). -/
def publishStep (acc : Nat × EngineState) (x : Nat) : Nat × EngineState :=
  send_signed_packet acc.2 acc.1 [] [x]

/-- Embedding of orchestrator step 8 (src/main.rs:46-55): publish a
first signed packet chained to the keyload link with empty public part
and masked part `b"test branch"`, then run the `for x in 0u8..100`
loop (`publishStep` per iteration). -/
def publishPackets (keyload_link : Nat) : EngineState :=
  let first := send_signed_packet ⟨0, []⟩ keyload_link [] testBranchPayload
  ((List.range 100).foldl publishStep first).2

/-- Chain check: the first packet is chained to `prev`, and each later
packet is chained to the link of the packet before it. -/
def chainOk (prev : Nat) : List Packet → Bool
  | [] => true
  | p :: rest => p.chained_to == prev && chainOk p.link rest

/-- The link the next packet must chain to: the last packet's link, or
`prev` if no packet has been published yet. -/
def lastLink (prev : Nat) : List Packet → Nat
  | [] => prev
  | p :: rest => lastLink p.link rest

/-- Modelled from the spec: the Subscriber's consumed message sequence
(src/main.rs:57-62 together with §4.4 step 9 / §6 `messages()`) — the
masked payloads of the published packets, in publication order. -/
def consumedPayloads (st : EngineState) : List (List Nat) :=
  st.packets.map (fun p => p.masked_part)

theorem lastLink_append (ps : List Packet) :
    ∀ prev p, lastLink prev (ps ++ [p]) = p.link := by
  induction ps with
  | nil => intro prev p; rfl
  | cons q qs ih => intro prev p; exact ih q.link p

theorem chainOk_append (ps : List Packet) :
    ∀ prev p, chainOk prev (ps ++ [p]) =
      (chainOk prev ps && p.chained_to == lastLink prev ps) := by
  induction ps with
  | nil => intro prev p; simp [chainOk, lastLink]
  | cons q qs ih =>
    intro prev p
    simp only [List.cons_append, chainOk, lastLink, List.append_eq, ih, Bool.and_assoc]

theorem fold_packets_map_masked (xs : List Nat) :
    ∀ acc : Nat × EngineState,
      ((xs.foldl publishStep acc).2).packets.map (fun p => p.masked_part) =
        acc.2.packets.map (fun p => p.masked_part) ++ xs.map (fun x => [x]) := by
  induction xs with
  | nil => intro acc; simp
  | cons x xs ih =>
    intro acc
    simp only [List.foldl_cons, ih, publishStep, send_signed_packet, List.map_cons,
      List.map_append, List.map_cons, List.map_nil, List.append_assoc, List.cons_append,
      List.nil_append]

theorem fold_packets_public (xs : List Nat) :
    ∀ acc : Nat × EngineState,
      ((xs.foldl publishStep acc).2).packets.all (fun p => p.public_part == []) =
        acc.2.packets.all (fun p => p.public_part == []) := by
  induction xs with
  | nil => intro acc; rfl
  | cons x xs ih =>
    intro acc
    simp only [List.foldl_cons, ih, publishStep, send_signed_packet, List.all_append,
      List.all_cons, List.all_nil, Bool.and_true, beq_self_eq_true]

theorem fold_packets_length (xs : List Nat) :
    ∀ acc : Nat × EngineState,
      ((xs.foldl publishStep acc).2).packets.length =
        acc.2.packets.length + xs.length := by
  induction xs with
  | nil => intro acc; simp
  | cons x xs ih =>
    intro acc
    simp only [List.foldl_cons, ih, publishStep, send_signed_packet, List.length_append,
      List.length_cons, List.length_nil, List.length_cons]
    omega

theorem fold_packets_chain (xs : List Nat) :
    ∀ (kl : Nat) (acc : Nat × EngineState),
      chainOk kl acc.2.packets = true →
      lastLink kl acc.2.packets = acc.1 →
      chainOk kl ((xs.foldl publishStep acc).2).packets = true := by
  induction xs with
  | nil => intro kl acc hchain _; exact hchain
  | cons x xs ih =>
    intro kl acc hchain hlast
    simp only [List.foldl_cons]
    refine ih kl (publishStep acc x) ?_ ?_
    · simp only [publishStep, send_signed_packet, chainOk_append, hchain, hlast,
        Bool.true_and, beq_self_eq_true]
    · simp only [publishStep, send_signed_packet, lastLink_append]

theorem consumedPayloads_publishPackets (kl : Nat) :
    consumedPayloads (publishPackets kl) =
      testBranchPayload :: (List.range 100).map (fun x => [x]) := by
  simp only [consumedPayloads, publishPackets]
  rw [fold_packets_map_masked]
  simp [send_signed_packet]

/-- Claim C1 counterexample: a `send_announce` failure that is a plain
network error does not propagate out of the orchestrator — step 3
still takes the recovery branch and the run continues with the
recovered author. -/
theorem announce_network_error_still_recovers :
    announceOrRecover ⟨0⟩ (.error .network) (.ok ⟨1⟩) = .ok (⟨1⟩, false) := rfl

/-- Claim C1 (amended): the orchestrator treats every failure of the
announce-send — "already exists", network, or auth alike — as the
signal to recover the Author (`is_ok()` at src/main.rs:21 discards the
error's identity); the announce error never propagates, and the run
aborts only if the recovery call itself fails, with recovery's error.
A successful announce yields the fresh author and `is_new = true`. -/
theorem announce_failure_always_recovers :
    (∀ (a0 : Author) (e : TransportError) (a1 : Author),
      announceOrRecover a0 (.error e) (.ok a1) = .ok (a1, false)) ∧
    (∀ (a0 : Author) (e e2 : TransportError),
      announceOrRecover a0 (.error e) (.error e2) = .error e2) ∧
    (∀ (a0 : Author) (recoverResult : Except TransportError Author),
      announceOrRecover a0 (.ok ()) recoverResult = .ok (a0, true)) :=
  ⟨fun _ _ _ => rfl, fun _ _ _ => rfl, fun _ _ => rfl⟩

/-- Claim C2 counterexample: both the login request and the
select-database request return non-success statuses (401 and 500), yet
`ImmuDB::login` reports success — the statuses are never inspected. -/
theorem login_ignores_status : ImmuDB.login (.ok 401) (.ok 500) = .ok := rfl

/-- Claim C2 (amended): `ImmuDB::login` fails only when one of its two
HTTP requests itself fails (a request-level/network error, propagated
by `?`); it succeeds whenever both requests complete, regardless of
their response statuses — a non-success login or select-database
status is not detected. -/
theorem login_fails_only_on_request_failure :
    ∀ r1 r2 : NetResult Nat,
      (ImmuDB.login r1 r2 = .ok ↔ (∃ s, r1 = .ok s) ∧ (∃ s, r2 = .ok s)) ∧
      (ImmuDB.login r1 r2 = .requestFailed ↔
        r1 = .netErr ∨ ((∃ s, r1 = .ok s) ∧ r2 = .netErr)) := by
  intro r1 r2
  cases r1 <;> cases r2 <;> simp [ImmuDB.login]

/-- Claim C3 counterexample: on a success-status response whose JSON
body is an object with no `value` field, `recv_message` panics (the
`.expect` at src/main.rs:187) instead of returning a
protocol-mismatch error. -/
theorem recv_missing_value_panics_concrete :
    ImmuDB.recv_message TangleAddress.defaultAddr (.ok (200, .obj [])) =
      .panicked "getting message from successful recv response" := rfl

/-- Claim C3 (amended): for every `recv_message` call in which the
store answers with a success status but the JSON body lacks a string
`value` field, the operation panics with the `.expect` message
"getting message from successful recv response" — it aborts the
process rather than returning any error result. -/
theorem recv_missing_value_panics (link : TangleAddress) (status : Nat)
    (payload : JsonVal) (hs : isSuccess status = true)
    (hv : (payload.index "value").asStr = none) :
    ImmuDB.recv_message link (.ok (status, payload)) =
      .panicked "getting message from successful recv response" := by
  simp [ImmuDB.recv_message, hs, hv]

/-- Witness for claim C3's amended theorem: a success status with a
`null` JSON body. -/
theorem recv_missing_value_panics_witness :
    ImmuDB.recv_message TangleAddress.defaultAddr (.ok (200, .jnull)) =
      .panicked "getting message from successful recv response" :=
  recv_missing_value_panics TangleAddress.defaultAddr 200 .jnull (by decide) rfl

/-- Claim C4 counterexample: the Subscriber's consumed payload
sequence is not "empty-bytes first, then the single bytes 0..99" — the
first signed packet's masked payload is `b"test branch"`
(src/main.rs:47), not the empty byte string. -/
theorem first_payload_not_empty :
    consumedPayloads (publishPackets 0) ≠
      [] :: (List.range 100).map (fun x => [x]) := by
  rw [consumedPayloads_publishPackets 0]
  intro h
  simp only [List.cons.injEq] at h
  exact absurd h.1 (by decide)

/-- Claim C4 (amended): the Author publishes packet P0 chained to the
keyload link with masked payload `b"test branch"` (its public portion
is empty), then 100 further packets whose payloads are the single-byte
values 0..99 chained sequentially, and the Subscriber's consumed
sequence yields exactly 101 payloads in publication order: the bytes
of "test branch" first, then the single bytes 0,1,...,99. -/
theorem publish_payload_sequence (kl : Nat) :
    consumedPayloads (publishPackets kl) =
      testBranchPayload :: (List.range 100).map (fun x => [x]) ∧
    (consumedPayloads (publishPackets kl)).length = 101 := by
  refine ⟨consumedPayloads_publishPackets kl, ?_⟩
  rw [consumedPayloads_publishPackets kl]
  simp

/-- Claim C5: in orchestrator step 8 the first signed packet is
chained to the keyload link and every subsequent signed packet is
chained to the link returned for the packet before it, each packet
carries an empty public portion, and the chain holds all 101 packets —
no link skipped or swapped. -/
theorem publish_chain_ok (kl : Nat) :
    chainOk kl (publishPackets kl).packets = true ∧
    (publishPackets kl).packets.all (fun p => p.public_part == []) = true ∧
    (publishPackets kl).packets.length = 101 := by
  refine ⟨?_, ?_, ?_⟩
  · simp only [publishPackets]
    refine fold_packets_chain (List.range 100) kl _ ?_ ?_
    · simp [send_signed_packet, chainOk]
    · simp [send_signed_packet, lastLink]
  · simp only [publishPackets]
    rw [fold_packets_public]
    simp [send_signed_packet]
  · simp only [publishPackets]
    rw [fold_packets_length]
    simp [send_signed_packet]

/-- Claim C6: `send_message` succeeds exactly when the store's
verified-write response has a success status; on a non-success status
it fails with the error carrying the key/index computed from the
message's link; and it issues exactly one write request. -/
theorem send_message_spec (msg : TangleMessage) (net : NetResult Nat) :
    ((ImmuDB.send_message msg net).2 = .ok () ↔
      ∃ s, net = .ok s ∧ isSuccess s = true) ∧
    (∀ s, net = .ok s → isSuccess s = false →
      (ImmuDB.send_message msg net).2 =
        .error (.rejected msg.link.to_msg_index)) ∧
    (ImmuDB.send_message msg net).1 = [ImmuDB.setRequest msg] := by
  refine ⟨?_, ?_, rfl⟩
  · cases net with
    | netErr => simp [ImmuDB.send_message]
    | ok s => by_cases h : isSuccess s <;> simp [ImmuDB.send_message, h]
  · intro s hs hfail
    subst hs
    simp [ImmuDB.send_message, hfail]

/-- Witness for claim C6: a write rejected with status 500 fails with
the error carrying the message's index. -/
theorem send_message_spec_witness :
    (ImmuDB.send_message
      ⟨TangleAddress.defaultAddr, TangleAddress.defaultAddr, [1, 2]⟩
      (.ok 500)).2 =
      .error (.rejected (TangleAddress.defaultAddr).to_msg_index) :=
  (send_message_spec
    ⟨TangleAddress.defaultAddr, TangleAddress.defaultAddr, [1, 2]⟩
    (.ok 500)).2.1 500 rfl (by decide)

/-- Claim C7: `recv_message` on a non-success status fails with the
status-carrying read error — never a message with an empty decoded
payload — and that error is distinguishable from the decode error
raised on a malformed encoded value. -/
theorem recv_message_miss (link : TangleAddress) (status : Nat)
    (payload : JsonVal) (hfail : isSuccess status = false) :
    ImmuDB.recv_message link (.ok (status, payload)) =
      .err (.httpError status) ∧
    ImmuDB.RecvError.httpError status ≠ ImmuDB.RecvError.decodeError := by
  constructor
  · simp [ImmuDB.recv_message, hfail]
  · intro h
    exact ImmuDB.RecvError.noConfusion h

/-- Witness for claim C7: a 404 miss. -/
theorem recv_message_miss_witness :
    ImmuDB.recv_message TangleAddress.defaultAddr (.ok (404, .jnull)) =
      .err (.httpError 404) :=
  (recv_message_miss TangleAddress.defaultAddr 404 .jnull (by decide)).1

/-- Claim C9: `send_message` and `recv_message` compute the same store
key from the same link (both take base64 of the link's message index),
and distinct well-formed links yield distinct keys. -/
theorem link_key_deterministic :
    (∀ msg : TangleMessage,
      (ImmuDB.setRequest msg).key = ImmuDB.keyRequest msg.link) ∧
    (∀ l1 l2 : TangleAddress, l1.wf → l2.wf →
      ImmuDB.keyRequest l1 = ImmuDB.keyRequest l2 → l1 = l2) := by
  constructor
  · intro msg
    rfl
  · intro l1 l2 h1 h2 hk
    simp only [ImmuDB.keyRequest] at hk
    have hidx : l1.to_msg_index = l2.to_msg_index := by
      refine b64encode_inj ?_ ?_ hk
      · intro x hx
        rcases List.mem_append.1 hx with hx | hx
        · exact h1.2.2.1 x hx
        · exact h1.2.2.2 x hx
      · intro x hx
        rcases List.mem_append.1 hx with hx | hx
        · exact h2.2.2.1 x hx
        · exact h2.2.2.2 x hx
    simp only [TangleAddress.to_msg_index] at hidx
    have hlen : l1.appinst.length = l2.appinst.length := h1.1.trans h2.1.symm
    obtain ⟨ha, hm⟩ := List.append_inj hidx hlen
    obtain ⟨a1, m1⟩ := l1
    obtain ⟨a2, m2⟩ := l2
    simp only [TangleAddress.mk.injEq]
    exact ⟨ha, hm⟩

/-- Witness for claim C9's injectivity part, at the default (zeroed)
well-formed address. -/
theorem link_key_deterministic_witness :
    TangleAddress.defaultAddr = TangleAddress.defaultAddr :=
  link_key_deterministic.2 TangleAddress.defaultAddr TangleAddress.defaultAddr
    (by decide) (by decide) rfl

/-- Claim C10: every message successfully returned by `recv_message`
is addressed at the requested link and carries the default (zeroed)
address as its predecessor link. -/
theorem recv_message_addressing (link : TangleAddress)
    (net : NetResult (Nat × JsonVal)) (msg : TangleMessage)
    (h : ImmuDB.recv_message link net = .ok msg) :
    msg.link = link ∧ msg.prev_link = TangleAddress.defaultAddr := by
  cases net with
  | netErr => simp [ImmuDB.recv_message] at h
  | ok resp =>
    obtain ⟨status, payload⟩ := resp
    simp only [ImmuDB.recv_message] at h
    split at h
    · split at h
      · simp at h
      · split at h
        · simp at h
        · simp only [ImmuDB.RecvOutcome.ok.injEq] at h
          subst h
          exact ⟨rfl, rfl⟩
    · simp at h

/-- Witness for claim C10: a successful read of a one-byte body. -/
theorem recv_message_addressing_witness :
    (TangleMessage.new TangleAddress.defaultAddr TangleAddress.defaultAddr
      [0]).link = TangleAddress.defaultAddr ∧
    (TangleMessage.new TangleAddress.defaultAddr TangleAddress.defaultAddr
      [0]).prev_link = TangleAddress.defaultAddr :=
  recv_message_addressing TangleAddress.defaultAddr
    (.ok (200, .obj [("value", .str "AA==")]))
    (TangleMessage.new TangleAddress.defaultAddr TangleAddress.defaultAddr [0])
    (by decide)

end StreamsTransport
